import Mathlib

/-!
# Verification of routee-compass core claims

A shallow embedding of the routee-compass road-network routing code
(graph construction, traversal models, frontier models, tabular lookups)
together with proofs settling the specification claims.

Numeric `f64` values are modelled as rationals (`ℚ`): every claim under
study concerns exact algebraic structure (accumulation, conversion
factors, sign) rather than rounding behaviour. Rust `i16` values are
modelled as `Int`; the only 16-bit computation studied
(`compute_headings_angle` on headings in `[0, 360)`) stays far inside the
`i16` range, so no wrap-around modelling is required. Rust `%` on signed
integers truncates toward zero, which is Lean's `Int.tmod`.

Fallible Rust functions returning `Result<T, E>` are embedded as
`Except E T`. A Rust function that can additionally panic (out-of-bounds
`Vec` index write) is embedded as `Option (Except E T)` with `none`
standing for the panic.
-/

/-- Equality of embedded `Result` values is decidable. -/
instance {ε α : Type} [DecidableEq ε] [DecidableEq α] :
    DecidableEq (Except ε α) := fun a b =>
  match a, b with
  | .error e, .error f =>
    if h : e = f then isTrue (by rw [h]) else isFalse (by simp [h])
  | .error _, .ok _ => isFalse (by simp)
  | .ok _, .error _ => isFalse (by simp)
  | .ok x, .ok y =>
    if h : x = y then isTrue (by rw [h]) else isFalse (by simp [h])

namespace Compass

/-! ## Identifiers and basic properties (model/graph, model/property) -/

/-- `VertexId(pub usize)`: dense non-negative integer handle. -/
abbrev VertexId := Nat

/-- `EdgeId(pub usize)`: dense non-negative integer handle. -/
abbrev EdgeId := Nat

/-- `RoadClass`: enumerated category; its particular variants are
irrelevant to the claims, so it is a plain numeric tag. -/
abbrev RoadClass := Nat

/-- `StateVar(pub f64)`: one scalar slot of a traversal state. -/
abbrev StateVar := ℚ

/-- `Edge` from compass-core `model/property/edge.rs`: edge id, endpoint
vertex ids, road class, distance and grade. -/
structure Edge where
  edge_id : EdgeId
  src_vertex_id : VertexId
  dst_vertex_id : VertexId
  road_class : RoadClass
  distance : ℚ
  grade : ℚ
deriving DecidableEq, Repr

/-- `Edge::default()` (all fields zero). -/
def Edge.default : Edge :=
  { edge_id := 0, src_vertex_id := 0, dst_vertex_id := 0
    road_class := 0, distance := 0, grade := 0 }

/-- Coordinate in WGS84 degrees (`x` = lon, `y` = lat). -/
structure Coordinate where
  x : ℚ
  y : ℚ
deriving DecidableEq, Repr

/-- `Vertex`: id and coordinate. -/
structure Vertex where
  vertex_id : VertexId
  coordinate : Coordinate
deriving DecidableEq, Repr

/-! ## Errors -/

/-- `StateModelError` kinds used by the state-model operations. -/
inductive StateModelError
  | unknownFeature (name : String)
  | unitMismatch (name : String)
deriving DecidableEq, Repr

/-- `TraversalModelError` variants reached by the embedded code paths. -/
inductive TraversalModelError
  | missingIdInTabularCostFunction (id idType table : String)
  | numericError (msg : String)
  | stateError (e : StateModelError)
deriving DecidableEq, Repr

/-- `FrontierModelError` (no variant is ever produced by the embedded
truck-restriction path, which only returns `Ok`). -/
inductive FrontierModelError
  | lookupFailure (msg : String)
deriving DecidableEq, Repr

/-! ## Tabular lookups (speed_traversal_model.rs, energy_model_ops.rs) -/

/-- `get_speed` from `speed_traversal_model.rs`: index the speed table by
edge id, `MissingIdInTabularCostFunction` when out of bounds. -/
def get_speed (speed_table : List ℚ) (edge_id : EdgeId) :
    Except TraversalModelError ℚ :=
  match speed_table.get? edge_id with
  | none => .error (.missingIdInTabularCostFunction
      (toString edge_id) "EdgeId" "speed table")
  | some speed => .ok speed

/-- `EdgeHeading` (declared in energy_model_service.rs; the fields used by
`energy_model_ops.rs` are the `i16` start and end headings). -/
structure EdgeHeading where
  start_heading : Int
  end_heading : Int
deriving DecidableEq, Repr

/-- `get_headings` from `energy_model_ops.rs`: index the headings table by
edge id, `MissingIdInTabularCostFunction` when out of bounds. -/
def get_headings (headings_table : List EdgeHeading) (edge_id : EdgeId) :
    Except TraversalModelError EdgeHeading :=
  match headings_table.get? edge_id with
  | none => .error (.missingIdInTabularCostFunction
      (toString edge_id) "EdgeId" "headings table")
  | some heading => .ok heading

/-- `get_grade` from `energy_model_ops.rs`: `Ok(Grade::ZERO)` when there
is no grade table; otherwise index by edge id with
`MissingIdInTabularCostFunction` when out of bounds. -/
def get_grade (grade_table : Option (List ℚ)) (edge_id : EdgeId) :
    Except TraversalModelError ℚ :=
  match grade_table with
  | none => .ok 0
  | some gt =>
    match gt.get? edge_id with
    | none => .error (.missingIdInTabularCostFunction
        (toString edge_id) "EdgeId" "grade table")
    | some grade => .ok grade

/-- `compute_headings_angle` from `energy_model_ops.rs`:
`(b.start_heading - a.end_heading + 180) % 360 - 180` in `i16`
arithmetic; Rust `%` truncates toward zero (`Int.tmod`). -/
def compute_headings_angle (a b : EdgeHeading) : Int :=
  Int.tmod (b.start_heading - a.end_heading + 180) 360 - 180

/-! ## Units

Modelled from the spec: the unit-conversion code (`util::unit` /
`model::unit`) is not under src/. Per the spec, "all quantities carry
unit tags at type or schema level; conversion happens at the model
boundary". Each unit converts through a fixed positive factor to a base
unit (meters, seconds, meters-per-second). `BASE_DISTANCE_UNIT` is
meters, as fixed by the in-src test ("100 meters @ 10kph should take 36
seconds" with `distance: 100.0`). -/

/-- Modelled from the spec: distance units. -/
inductive DistanceUnit
  | meters
  | kilometers
  | miles
deriving DecidableEq, Repr

/-- Meters per unit (positive conversion factor). -/
def DistanceUnit.toMeters : DistanceUnit → ℚ
  | .meters => 1
  | .kilometers => 1000
  | .miles => 1609344 / 1000

/-- Modelled from the spec: `DistanceUnit::convert(value, to)`. -/
def DistanceUnit.convert (src : DistanceUnit) (value : ℚ)
    (dst : DistanceUnit) : ℚ :=
  value * src.toMeters / dst.toMeters

/-- `BASE_DISTANCE_UNIT` (meters). -/
def BASE_DISTANCE_UNIT : DistanceUnit := .meters

/-- Modelled from the spec: time units. -/
inductive TimeUnit
  | hours
  | minutes
  | seconds
  | milliseconds
deriving DecidableEq, Repr

/-- Seconds per unit (positive conversion factor). -/
def TimeUnit.toSeconds : TimeUnit → ℚ
  | .hours => 3600
  | .minutes => 60
  | .seconds => 1
  | .milliseconds => 1 / 1000

/-- Modelled from the spec: `TimeUnit::convert(value, to)`. -/
def TimeUnit.convert (src : TimeUnit) (value : ℚ) (dst : TimeUnit) : ℚ :=
  value * src.toSeconds / dst.toSeconds

/-- Modelled from the spec: speed units. -/
inductive SpeedUnit
  | kilometersPerHour
  | milesPerHour
  | metersPerSecond
deriving DecidableEq, Repr

/-- Meters-per-second per unit (positive conversion factor). -/
def SpeedUnit.toMps : SpeedUnit → ℚ
  | .kilometersPerHour => 1000 / 3600
  | .milesPerHour => 1609344 / 3600000
  | .metersPerSecond => 1

/-- Modelled from the spec: `SpeedUnit::convert(value, to)`. -/
def SpeedUnit.convert (src : SpeedUnit) (value : ℚ) (dst : SpeedUnit) : ℚ :=
  value * src.toMps / dst.toMps

/-- Modelled from the spec: `Time::create(speed, speed_unit, distance,
distance_unit, time_unit)` "converts (distance / speed) to the configured
time unit": the base-unit quotient (meters over meters-per-second,
i.e. seconds) converted into `time_unit`. The unit module holding
`Time::create` is not under src/. -/
def Time.create (speed : ℚ) (speed_unit : SpeedUnit) (distance : ℚ)
    (distance_unit : DistanceUnit) (time_unit : TimeUnit) :
    Except TraversalModelError ℚ :=
  let d := distance_unit.convert distance .meters
  let s := speed_unit.convert speed .metersPerSecond
  .ok (TimeUnit.seconds.convert (d / s) time_unit)

/-! ## State model

Modelled from the spec (§4.2): the state model maps feature names to
`(index, StateFeature)`; `add_<kind>` "unit-converts `delta` into the
feature's stored unit and adds; fails with `StateModelError::UnitMismatch`
if the feature kind disagrees", and unknown names fail with
`StateModelError::UnknownFeature`. The state-model module is not under
src/. -/

/-- Modelled from the spec: a state feature declaration. -/
inductive StateFeature
  | distanceFeature (unit : DistanceUnit)
  | timeFeature (unit : TimeUnit)
  | energyFeature
deriving DecidableEq, Repr

/-- Modelled from the spec: the schema is the ordered feature list; a
feature's index is its position. -/
structure StateModel where
  features : List (String × StateFeature)
deriving DecidableEq, Repr

/-- Modelled from the spec: `StateModel::add_time` looks up the named
feature, requires it to be a time feature, converts the delta from
`delta_unit` into the feature's stored unit and adds it at the feature's
index. -/
def StateModel.add_time (sm : StateModel) (state : List StateVar)
    (name : String) (delta : ℚ) (delta_unit : TimeUnit) :
    Except StateModelError (List StateVar) :=
  match sm.features.findIdx? (fun p => p.1 == name) with
  | none => .error (.unknownFeature name)
  | some i =>
    match sm.features.get? i with
    | some (_, .timeFeature u) =>
      .ok (state.set i (state.getD i 0 + delta_unit.convert delta u))
    | _ => .error (.unitMismatch name)

/-! ## Traversal models -/

/-- `TraversalResult` from compass-core: total cost plus updated state. -/
structure TraversalResult where
  total_cost : ℚ
  updated_state : List StateVar
deriving DecidableEq, Repr

/-- `DistanceModel` from `distance.rs`: configured output distance unit. -/
structure DistanceModel where
  distance_unit : DistanceUnit
deriving DecidableEq, Repr

/-- `DistanceModel::initial_state`: `vec![StateVar(0.0)]`. -/
def DistanceModel.initial_state (_m : DistanceModel) : List StateVar := [0]

/-- `DistanceModel::traversal_cost` from `distance.rs`: convert the edge
distance from the base unit into the model's unit, clone the state, add
the converted distance at index 0, and return it with the converted
distance as total cost. The Rust `state[0]` / `updated_state[0]` indexing
panics on an empty vector; `none` models that panic. -/
def DistanceModel.traversal_cost (m : DistanceModel) (edge : Edge)
    (state : List StateVar) :
    Option (Except TraversalModelError TraversalResult) :=
  if h : 0 < state.length then
    let distance := BASE_DISTANCE_UNIT.convert edge.distance m.distance_unit
    some (.ok
      { total_cost := distance
        updated_state := state.set 0 (state.get ⟨0, h⟩ + distance) })
  else none

/-- `SpeedTraversalEngine`: per-edge speed table and configured units. -/
structure SpeedTraversalEngine where
  speed_table : List ℚ
  speed_unit : SpeedUnit
  distance_unit : DistanceUnit
  time_unit : TimeUnit
  max_speed : ℚ
deriving DecidableEq, Repr

/-- `SpeedTraversalModel::traverse_edge` from
`speed_traversal_model.rs`: convert the edge distance into the engine's
distance unit, look up the speed by edge id, build the edge time with
`Time::create`, and add it to the `"time"` feature via
`StateModel::add_time` (state is mutated in place in Rust; here the new
state is returned). -/
def SpeedTraversalModel.traverse_edge (engine : SpeedTraversalEngine)
    (edge : Edge) (state : List StateVar) (state_model : StateModel) :
    Except TraversalModelError (List StateVar) :=
  let distance := BASE_DISTANCE_UNIT.convert edge.distance
    engine.distance_unit
  match get_speed engine.speed_table edge.edge_id with
  | .error e => .error e
  | .ok speed =>
    match Time.create speed engine.speed_unit distance
      engine.distance_unit engine.time_unit with
    | .error e => .error e
    | .ok edge_time =>
      match state_model.add_time state "time" edge_time
        engine.time_unit with
      | .ok s2 => .ok s2
      | .error e => .error (.stateError e)

/-- `SpeedTraversalModel::estimate_traversal` from
`speed_traversal_model.rs`: compute the haversine coordinate distance (an
external call, passed here as the function `coord_distance`), return `Ok`
immediately when it is zero, otherwise add the max-speed travel time to
the `"time"` feature. -/
def SpeedTraversalModel.estimate_traversal
    (coord_distance : Coordinate → Coordinate → DistanceUnit →
      Except String ℚ)
    (engine : SpeedTraversalEngine) (src dst : Vertex)
    (state : List StateVar) (state_model : StateModel) :
    Except TraversalModelError (List StateVar) :=
  match coord_distance src.coordinate dst.coordinate
    engine.distance_unit with
  | .error e => .error (.numericError e)
  | .ok distance =>
    if distance = 0 then .ok state
    else
      match Time.create engine.max_speed engine.speed_unit distance
        engine.distance_unit engine.time_unit with
      | .error e => .error e
      | .ok estimated_time =>
        match state_model.add_time state "time" estimated_time
          engine.time_unit with
        | .ok s2 => .ok s2
        | .error e => .error (.stateError e)

/-! ## Unit positivity and pointwise-monotonicity helpers -/

lemma DistanceUnit.toMeters_pos (u : DistanceUnit) : 0 < u.toMeters := by
  cases u <;> norm_num [DistanceUnit.toMeters]

lemma TimeUnit.toSeconds_pos (u : TimeUnit) : 0 < u.toSeconds := by
  cases u <;> norm_num [TimeUnit.toSeconds]

lemma SpeedUnit.toMps_pos (u : SpeedUnit) : 0 < u.toMps := by
  cases u <;> norm_num [SpeedUnit.toMps]

lemma distance_convert_nonneg (src dst : DistanceUnit) {v : ℚ}
    (hv : 0 ≤ v) : 0 ≤ src.convert v dst :=
  div_nonneg (mul_nonneg hv (src.toMeters_pos).le) (dst.toMeters_pos).le

lemma time_convert_nonneg (src dst : TimeUnit) {v : ℚ}
    (hv : 0 ≤ v) : 0 ≤ src.convert v dst :=
  div_nonneg (mul_nonneg hv (src.toSeconds_pos).le) (dst.toSeconds_pos).le

lemma speed_convert_nonneg (src dst : SpeedUnit) {v : ℚ}
    (hv : 0 ≤ v) : 0 ≤ src.convert v dst :=
  div_nonneg (mul_nonneg hv (src.toMps_pos).le) (dst.toMps_pos).le

/-- Adding a nonnegative delta at one index leaves every component of the
state pointwise greater than or equal to the original. -/
lemma getD_set_add_le (state : List ℚ) (i : Nat) (δ : ℚ) (hδ : 0 ≤ δ)
    (j : Nat) :
    state.getD j 0 ≤ (state.set i (state.getD i 0 + δ)).getD j 0 := by
  rcases eq_or_ne i j with rfl | hne
  · cases h : state[i]? with
    | none =>
      have hs : state.getD i 0 = 0 := by
        simp [List.getD_eq_getElem?_getD, h]
      simp [List.getD_eq_getElem?_getD, List.getElem?_set_self', h, hs]
    | some a =>
      have hs : state.getD i 0 = a := by
        simp [List.getD_eq_getElem?_getD, h]
      rw [hs, List.getD_eq_getElem?_getD, List.getElem?_set_self', h]
      show a ≤ a + δ
      linarith
  · rw [List.getD_eq_getElem?_getD, List.getD_eq_getElem?_getD,
      List.getElem?_set_ne hne]

/-- A successful `get_speed` returns exactly the table entry at the
looked-up edge id. -/
lemma get_speed_ok_getD {t : List ℚ} {i : EdgeId} {s : ℚ}
    (h : get_speed t i = .ok s) : s = t.getD i 0 := by
  unfold get_speed at h
  cases hg : t.get? i with
  | none => rw [hg] at h; exact absurd h (by simp)
  | some a =>
    rw [hg] at h
    obtain rfl : a = s := by injection h
    rw [List.get?_eq_getElem?] at hg
    simp [List.getD_eq_getElem?_getD, hg]

/-- A successful `add_time` call writes the converted delta at the found
feature index and changes nothing else. -/
lemma add_time_ok_shape (sm : StateModel) (state : List StateVar)
    (name : String) (delta : ℚ) (du : TimeUnit) (s2 : List StateVar)
    (hok : sm.add_time state name delta du = .ok s2) :
    ∃ i u, s2 = state.set i (state.getD i 0 + du.convert delta u) := by
  unfold StateModel.add_time at hok
  split at hok
  · exact absurd hok (by simp)
  next i hfi =>
    split at hok
    next fst u hge =>
      refine ⟨i, u, ?_⟩
      injection hok with hok
      exact hok.symm
    next => exact absurd hok (by simp)

/-! ## Claim C3: DistanceModel traversal is exact -/

/-- C3: for every edge and every (well-formed, hence non-empty) pre-state,
`DistanceModel::traversal_cost` returns `Ok` with the distance component
(index 0) increased by exactly the edge distance converted from the base
unit into the model's configured unit, total cost equal to that same
converted distance, and every other component (and the input vector,
which the pure embedding cannot mutate) untouched. -/
theorem distance_model_traverse_exact (m : DistanceModel) (edge : Edge)
    (state : List StateVar) (h : 0 < state.length) :
    m.traversal_cost edge state = some (.ok
      { total_cost := BASE_DISTANCE_UNIT.convert edge.distance
          m.distance_unit
        updated_state := state.set 0 (state.get ⟨0, h⟩ +
          BASE_DISTANCE_UNIT.convert edge.distance m.distance_unit) }) ∧
    (∀ j, j ≠ 0 →
      (state.set 0 (state.get ⟨0, h⟩ +
        BASE_DISTANCE_UNIT.convert edge.distance m.distance_unit))[j]? =
      state[j]?) := by
  constructor
  · unfold DistanceModel.traversal_cost
    rw [dif_pos h]
  · intro j hj
    exact List.getElem?_set_ne (fun hx => hj hx.symm)

/-- Witness for C3: 100 base-unit meters convert to 0.1 km; the distance
component accumulates from 0 to 1/10. -/
theorem distance_model_traverse_exact_witness :
    DistanceModel.traversal_cost { distance_unit := .kilometers }
      { edge_id := 0, src_vertex_id := 0, dst_vertex_id := 1
        road_class := 0, distance := 100, grade := 0 } [0] =
      some (.ok { total_cost := 1/10, updated_state := [1/10] }) := by
  rw [(distance_model_traverse_exact { distance_unit := .kilometers }
    { edge_id := 0, src_vertex_id := 0, dst_vertex_id := 1
      road_class := 0, distance := 100, grade := 0 } [0] (by decide)).1]
  simp [BASE_DISTANCE_UNIT, DistanceUnit.convert, DistanceUnit.toMeters]
  norm_num

/-! ## Claim C2: monotone accumulators -/

/-- C2 counterexample: the claim quantifies over every edge, but an edge
with negative recorded distance (representable in the edge CSV, and
checked nowhere in either model) makes `DistanceModel::traversal_cost`
return a successful result whose distance component `-1` is strictly
below the pre-state component `0`. -/
theorem traversal_monotone_counterexample :
    DistanceModel.traversal_cost { distance_unit := .meters }
      { edge_id := 0, src_vertex_id := 0, dst_vertex_id := 1
        road_class := 0, distance := -1, grade := 0 } [0] =
      some (.ok { total_cost := -1, updated_state := [-1] }) ∧
    ((-1 : ℚ) < 0) := by
  refine ⟨?_, by norm_num⟩
  simp [DistanceModel.traversal_cost, BASE_DISTANCE_UNIT,
    DistanceUnit.convert, DistanceUnit.toMeters]

/-- C2 amended: for both shipped traversal models, every successful
traversal yields a state pointwise greater than or equal to the pre-state
provided the edge's recorded distance is nonnegative (and, for the speed
model, the table speed looked up for that edge's id is nonnegative) —
the accumulators are monotone on nonnegative inputs. -/
theorem traversal_models_monotone (m : DistanceModel)
    (engine : SpeedTraversalEngine) (edge : Edge)
    (state : List StateVar) (sm : StateModel) :
    (0 ≤ edge.distance →
      ∀ res, m.traversal_cost edge state = some (.ok res) →
      ∀ j, state.getD j 0 ≤ res.updated_state.getD j 0) ∧
    (0 ≤ edge.distance →
      0 ≤ engine.speed_table.getD edge.edge_id 0 →
      ∀ s2, SpeedTraversalModel.traverse_edge engine edge state sm =
        .ok s2 →
      ∀ j, state.getD j 0 ≤ s2.getD j 0) := by
  constructor
  · intro hd res hok j
    unfold DistanceModel.traversal_cost at hok
    by_cases h : 0 < state.length
    · rw [dif_pos h] at hok
      have hres : res.updated_state = state.set 0 (state.get ⟨0, h⟩ +
          BASE_DISTANCE_UNIT.convert edge.distance m.distance_unit) := by
        injection hok with hok
        injection hok with hok
        rw [← hok]
      have hget : state.get ⟨0, h⟩ = state.getD 0 0 := by
        rw [List.getD_eq_getElem?_getD, List.getElem?_eq_getElem h]
        rfl
      rw [hres, hget]
      exact getD_set_add_le state 0 _
        (distance_convert_nonneg _ _ hd) j
    · rw [dif_neg h] at hok
      exact absurd hok (by simp)
  · intro hd hsp s2 hok j
    unfold SpeedTraversalModel.traverse_edge at hok
    cases hgs : get_speed engine.speed_table edge.edge_id with
    | error e => rw [hgs] at hok; exact absurd hok (by simp)
    | ok speed =>
      rw [hgs] at hok
      simp only [Time.create] at hok
      cases hat : sm.add_time state "time"
          (TimeUnit.seconds.convert
            (engine.distance_unit.convert
              (BASE_DISTANCE_UNIT.convert edge.distance
                engine.distance_unit) .meters /
             engine.speed_unit.convert speed .metersPerSecond)
            engine.time_unit)
          engine.time_unit with
      | error e => rw [hat] at hok; exact absurd hok (by simp)
      | ok s3 =>
        rw [hat] at hok
        obtain rfl : s3 = s2 := by injection hok
        obtain ⟨i, u, hshape⟩ := add_time_ok_shape _ _ _ _ _ _ hat
        have hspeed : 0 ≤ speed := by
          rw [get_speed_ok_getD hgs]
          exact hsp
        have htime : 0 ≤ TimeUnit.seconds.convert
            (engine.distance_unit.convert
              (BASE_DISTANCE_UNIT.convert edge.distance
                engine.distance_unit) .meters /
             engine.speed_unit.convert speed .metersPerSecond)
            engine.time_unit := by
          apply time_convert_nonneg
          apply div_nonneg
          · exact distance_convert_nonneg _ _
              (distance_convert_nonneg _ _ hd)
          · exact speed_convert_nonneg _ _ hspeed
        rw [hshape]
        exact getD_set_add_le state i _
          (time_convert_nonneg _ _ htime) j

/-- Witness for C2's amended theorem: the speed model on a 100 m edge at
10 kph with a seconds time feature accumulates time 0 → 36, pointwise
above the zero pre-state. -/
theorem traversal_models_monotone_witness :
    SpeedTraversalModel.traverse_edge
      { speed_table := [10], speed_unit := .kilometersPerHour
        distance_unit := .kilometers, time_unit := .seconds
        max_speed := 10 }
      { edge_id := 0, src_vertex_id := 0, dst_vertex_id := 1
        road_class := 0, distance := 100, grade := 0 }
      [0, 0]
      { features := [("distance", .distanceFeature .kilometers),
                     ("time", .timeFeature .seconds)] } =
      .ok [0, 36] ∧
    ([0, 0] : List StateVar).getD 1 0 ≤ ([0, 36] : List StateVar).getD 1 0 := by
  have hrun : SpeedTraversalModel.traverse_edge
      { speed_table := [10], speed_unit := .kilometersPerHour
        distance_unit := .kilometers, time_unit := .seconds
        max_speed := 10 }
      { edge_id := 0, src_vertex_id := 0, dst_vertex_id := 1
        road_class := 0, distance := 100, grade := 0 }
      [0, 0]
      { features := [("distance", .distanceFeature .kilometers),
                     ("time", .timeFeature .seconds)] } =
      .ok [0, 36] := by
    simp [SpeedTraversalModel.traverse_edge, get_speed, Time.create,
      StateModel.add_time, BASE_DISTANCE_UNIT, DistanceUnit.convert,
      DistanceUnit.toMeters, SpeedUnit.convert, SpeedUnit.toMps,
      TimeUnit.convert, TimeUnit.toSeconds, List.findIdx?]
    norm_num
  have hmono := (traversal_models_monotone { distance_unit := .meters }
    { speed_table := [10], speed_unit := .kilometersPerHour
      distance_unit := .kilometers, time_unit := .seconds
      max_speed := 10 }
    { edge_id := 0, src_vertex_id := 0, dst_vertex_id := 1
      road_class := 0, distance := 100, grade := 0 }
    [0, 0]
    { features := [("distance", .distanceFeature .kilometers),
                   ("time", .timeFeature .seconds)] }).2
    (by norm_num) (by norm_num [List.getD_eq_getElem?_getD])
    [0, 36] hrun 1
  exact ⟨hrun, hmono⟩

/-! ## Claim C4: the speed model adds the quotient time -/

/-- Unit round trip: converting a base-unit distance into `du` and back
to meters returns the original value. -/
lemma distance_roundtrip (du : DistanceUnit) (x : ℚ) :
    du.convert (BASE_DISTANCE_UNIT.convert x du) .meters = x := by
  have h := du.toMeters_pos.ne'
  have hm : DistanceUnit.toMeters .meters = 1 := rfl
  unfold DistanceUnit.convert BASE_DISTANCE_UNIT
  rw [hm]
  field_simp

/-- Converting a time into its own unit is the identity. -/
lemma time_convert_self (tu : TimeUnit) (x : ℚ) : tu.convert x tu = x := by
  have h := tu.toSeconds_pos.ne'
  unfold TimeUnit.convert
  field_simp

/-- The edge time C4 specifies: the edge's (base-unit) distance divided
by the table speed for its edge id, the quotient (seconds, since the
speed is read in base meters-per-second) converted into the engine's
configured time unit. -/
def claimed_edge_time (engine : SpeedTraversalEngine) (edge : Edge) : ℚ :=
  TimeUnit.seconds.convert
    (edge.distance /
      engine.speed_unit.convert (engine.speed_table.getD edge.edge_id 0)
        .metersPerSecond)
    engine.time_unit

/-- C4: whenever the edge id indexes the speed table and the state model
carries a `"time"` feature stored in the engine's configured time unit,
`traverse_edge` returns `Ok` and adds to the `"time"` component exactly
the edge distance divided by `speed_table[edge_id]`, converted into the
configured time unit. -/
theorem speed_traverse_adds_quotient_time (engine : SpeedTraversalEngine)
    (edge : Edge) (state : List StateVar) (sm : StateModel) (i : Nat)
    (hid : edge.edge_id < engine.speed_table.length)
    (hfind : sm.features.findIdx? (fun p => p.1 == "time") = some i)
    (hfeat : sm.features.get? i =
      some ("time", .timeFeature engine.time_unit)) :
    SpeedTraversalModel.traverse_edge engine edge state sm =
      .ok (state.set i
        (state.getD i 0 + claimed_edge_time engine edge)) := by
  have hgetD : engine.speed_table.getD edge.edge_id 0 =
      engine.speed_table.get ⟨edge.edge_id, hid⟩ := by
    rw [List.getD_eq_getElem?_getD, List.getElem?_eq_getElem hid]
    rfl
  have hgs : get_speed engine.speed_table edge.edge_id =
      .ok (engine.speed_table.get ⟨edge.edge_id, hid⟩) := by
    unfold get_speed
    rw [List.get?_eq_get hid]
  unfold SpeedTraversalModel.traverse_edge
  rw [hgs]
  simp only [Time.create]
  unfold StateModel.add_time
  simp only [hfind, hfeat]
  simp only [Except.ok.injEq]
  congr 1
  rw [time_convert_self, distance_roundtrip, claimed_edge_time, hgetD]

/-- Witness for C4, replaying the repository's own unit test: a 100 m
edge at table speed 10 kph with seconds as the configured time unit adds
exactly 36 seconds. -/
theorem speed_traverse_adds_quotient_time_witness :
    SpeedTraversalModel.traverse_edge
      { speed_table := [10], speed_unit := .kilometersPerHour
        distance_unit := .kilometers, time_unit := .seconds
        max_speed := 10 }
      { edge_id := 0, src_vertex_id := 0, dst_vertex_id := 1
        road_class := 0, distance := 100, grade := 0 }
      [0, 0]
      { features := [("distance", .distanceFeature .kilometers),
                     ("time", .timeFeature .seconds)] } =
      .ok [0, 36] := by
  rw [speed_traverse_adds_quotient_time
    { speed_table := [10], speed_unit := .kilometersPerHour
      distance_unit := .kilometers, time_unit := .seconds
      max_speed := 10 }
    { edge_id := 0, src_vertex_id := 0, dst_vertex_id := 1
      road_class := 0, distance := 100, grade := 0 }
    [0, 0]
    { features := [("distance", .distanceFeature .kilometers),
                   ("time", .timeFeature .seconds)] }
    1 (by decide) rfl rfl]
  simp [claimed_edge_time, TimeUnit.convert, TimeUnit.toSeconds,
    SpeedUnit.convert, SpeedUnit.toMps]
  norm_num

/-! ## Claim C6: zero-distance estimates do not touch the state -/

/-- C6: whenever the haversine coordinate distance between the two
vertices evaluates to zero, `estimate_traversal` short-circuits to `Ok`
with the state unchanged (no component is written). -/
theorem estimate_traversal_zero_distance
    (coord_distance : Coordinate → Coordinate → DistanceUnit →
      Except String ℚ)
    (engine : SpeedTraversalEngine) (src dst : Vertex)
    (state : List StateVar) (sm : StateModel)
    (h : coord_distance src.coordinate dst.coordinate
      engine.distance_unit = .ok 0) :
    SpeedTraversalModel.estimate_traversal coord_distance engine src dst
      state sm = .ok state := by
  unfold SpeedTraversalModel.estimate_traversal
  rw [h]
  simp

/-- Witness for C6: a distance function that is zero on equal
coordinates, applied to a vertex and itself. -/
theorem estimate_traversal_zero_distance_witness :
    SpeedTraversalModel.estimate_traversal
      (fun a b _ => if a = b then .ok 0 else .ok 1)
      { speed_table := [10], speed_unit := .kilometersPerHour
        distance_unit := .kilometers, time_unit := .seconds
        max_speed := 10 }
      { vertex_id := 0, coordinate := { x := 3, y := 4 } }
      { vertex_id := 0, coordinate := { x := 3, y := 4 } }
      [5, 7]
      { features := [("time", .timeFeature .seconds)] } =
      .ok [5, 7] :=
  estimate_traversal_zero_distance _ _ _ _ _ _ (by simp)

/-! ## Claim C5: truck restriction frontier model -/

/-- Modelled from the spec: the truck parameters (weight, height, width,
length); the truck_parameters module is not under src/. -/
structure TruckParameters where
  truck_weight : ℚ
  truck_height : ℚ
  truck_width : ℚ
  truck_length : ℚ
deriving DecidableEq, Repr

/-- Modelled from the spec: a restriction records a limit on one truck
dimension; the truck_restriction module is not under src/. -/
inductive TruckRestriction
  | maxWeight (limit : ℚ)
  | maxHeight (limit : ℚ)
  | maxWidth (limit : ℚ)
  | maxLength (limit : ℚ)
deriving DecidableEq, Repr

/-- Modelled from the spec: `TruckRestriction::valid(parameters)` — the
restriction "is violated by the supplied truck parameters" when the
corresponding dimension exceeds the limit. -/
def TruckRestriction.valid : TruckRestriction → TruckParameters → Bool
  | .maxWeight l, p => decide (p.truck_weight ≤ l)
  | .maxHeight l, p => decide (p.truck_height ≤ l)
  | .maxWidth l, p => decide (p.truck_width ≤ l)
  | .maxLength l, p => decide (p.truck_length ≤ l)

/-- `TruckRestrictionFrontierService`: the per-edge restriction lookup
(`HashMap<EdgeId, Vec<TruckRestriction>>`), modelled as an association
list with `HashMap::get` semantics. -/
structure TruckRestrictionFrontierService where
  truck_restriction_lookup : List (EdgeId × List TruckRestriction)
deriving DecidableEq, Repr

/-- `HashMap::get` on the association list. -/
def TruckRestrictionFrontierService.get
    (s : TruckRestrictionFrontierService) (k : EdgeId) :
    Option (List TruckRestriction) :=
  (s.truck_restriction_lookup.find? (fun p => p.1 == k)).map (fun p => p.2)

/-- `TruckRestrictionFrontierModel` from
`truck_restriction_model.rs`. -/
structure TruckRestrictionFrontierModel where
  service : TruckRestrictionFrontierService
  truck_parameters : TruckParameters
deriving DecidableEq, Repr

/-- The `for` loop body of `valid_frontier`: return `Ok(false)` at the
first restriction the parameters violate, `Ok(true)` past the end. -/
def checkRestrictions (params : TruckParameters) :
    List TruckRestriction → Except FrontierModelError Bool
  | [] => .ok true
  | r :: rest =>
    if r.valid params then checkRestrictions params rest else .ok false

/-- `TruckRestrictionFrontierModel::valid_frontier` from
`truck_restriction_model.rs`: `Ok(true)` when the edge has no recorded
restrictions, otherwise scan them. -/
def TruckRestrictionFrontierModel.valid_frontier
    (m : TruckRestrictionFrontierModel) (edge : Edge)
    (_state : List StateVar) (_previous_edge : Option Edge)
    (_state_model : StateModel) : Except FrontierModelError Bool :=
  match m.service.get edge.edge_id with
  | none => .ok true
  | some truck_restrictions =>
    checkRestrictions m.truck_parameters truck_restrictions

lemma checkRestrictions_ok_false_iff (p : TruckParameters)
    (l : List TruckRestriction) :
    checkRestrictions p l = .ok false ↔
      ∃ r ∈ l, r.valid p = false := by
  induction l with
  | nil => simp [checkRestrictions]
  | cons r rest ih =>
    by_cases h : r.valid p
    · simp [checkRestrictions, h, ih]
    · simp [checkRestrictions, h]

lemma checkRestrictions_ok_true_iff (p : TruckParameters)
    (l : List TruckRestriction) :
    checkRestrictions p l = .ok true ↔
      ∀ r ∈ l, r.valid p = true := by
  induction l with
  | nil => simp [checkRestrictions]
  | cons r rest ih =>
    by_cases h : r.valid p
    · simp [checkRestrictions, h, ih]
    · simp [checkRestrictions, h]

/-- C5: `valid_frontier` always returns `Ok`; it returns `Ok(false)` if
and only if the lookup records restrictions for the edge's id of which at
least one is violated by the supplied truck parameters, and `Ok(true)`
exactly when the edge has no recorded restrictions or every recorded
restriction is satisfied. -/
theorem truck_restriction_valid_frontier_iff
    (m : TruckRestrictionFrontierModel) (edge : Edge)
    (state : List StateVar) (prev : Option Edge) (sm : StateModel) :
    (m.valid_frontier edge state prev sm = .ok false ↔
      ∃ rs, m.service.get edge.edge_id = some rs ∧
        ∃ r ∈ rs, r.valid m.truck_parameters = false) ∧
    (m.valid_frontier edge state prev sm = .ok true ↔
      ∀ rs, m.service.get edge.edge_id = some rs →
        ∀ r ∈ rs, r.valid m.truck_parameters = true) ∧
    (m.valid_frontier edge state prev sm = .ok true ∨
      m.valid_frontier edge state prev sm = .ok false) := by
  unfold TruckRestrictionFrontierModel.valid_frontier
  cases hget : m.service.get edge.edge_id with
  | none => simp
  | some rs =>
    refine ⟨?_, ?_, ?_⟩
    · rw [checkRestrictions_ok_false_iff]
      constructor
      · exact fun ⟨r, hr, hv⟩ => ⟨rs, rfl, r, hr, hv⟩
      · rintro ⟨rs2, hrs2, r, hr, hv⟩
        obtain rfl : rs = rs2 := by injection hrs2
        exact ⟨r, hr, hv⟩
    · rw [checkRestrictions_ok_true_iff]
      constructor
      · intro hall rs2 hrs2
        obtain rfl : rs = rs2 := by injection hrs2
        exact hall
      · exact fun hall => hall rs rfl
    · by_cases hall : ∀ r ∈ rs, TruckRestriction.valid r m.truck_parameters = true
      · exact Or.inl ((checkRestrictions_ok_true_iff _ _).mpr hall)
      · refine Or.inr ((checkRestrictions_ok_false_iff _ _).mpr ?_)
        push_neg at hall
        obtain ⟨r, hr, hv⟩ := hall
        exact ⟨r, hr, by simpa using hv⟩

/-- Witness for C5: an edge with one recorded weight restriction a
20-tonne truck violates is rejected (`Ok(false)`). -/
theorem truck_restriction_valid_frontier_iff_witness :
    TruckRestrictionFrontierModel.valid_frontier
      { service := { truck_restriction_lookup :=
          [(0, [TruckRestriction.maxWeight 10])] }
        truck_parameters := { truck_weight := 20, truck_height := 1
                              truck_width := 1, truck_length := 1 } }
      { edge_id := 0, src_vertex_id := 0, dst_vertex_id := 1
        road_class := 0, distance := 1, grade := 0 }
      [] none { features := [] } = .ok false :=
  (truck_restriction_valid_frontier_iff
    { service := { truck_restriction_lookup :=
        [(0, [TruckRestriction.maxWeight 10])] }
      truck_parameters := { truck_weight := 20, truck_height := 1
                            truck_width := 1, truck_length := 1 } }
    { edge_id := 0, src_vertex_id := 0, dst_vertex_id := 1
      road_class := 0, distance := 1, grade := 0 }
    [] none { features := [] }).1.mpr
    ⟨[TruckRestriction.maxWeight 10], rfl, TruckRestriction.maxWeight 10,
      by simp, by norm_num [TruckRestriction.valid]⟩

/-! ## Claim C1: graph construction and unresolvable edge endpoints -/

/-- `TomTomGraphError` variants reached by the embedded row loop. -/
inductive TomTomGraphError
  | csvError (msg : String)
  | adjacencyVertexMissing (v : VertexId)
deriving DecidableEq, Repr

/-- `GraphError` (graphv2) variants relevant to the edge loader. -/
inductive GraphError
  | csvError (msg : String)
  | adjacencyVertexMissing (v : VertexId)
deriving DecidableEq, Repr

/-- `HashMap::insert` on the per-vertex adjacency map (replaces an
existing key). -/
def mapInsert (m : List (EdgeId × VertexId)) (k : EdgeId)
    (v : VertexId) : List (EdgeId × VertexId) :=
  m.filter (fun p => p.1 != k) ++ [(k, v)]

/-- `TomTomEdgeList` from `tomtom_edge_list.rs`. -/
structure TomTomEdgeList where
  edges : List Edge
  adj : List (List (EdgeId × VertexId))
  rev : List (List (EdgeId × VertexId))
deriving DecidableEq, Repr

/-- The row loop of `TomTomEdgeList::try_from`: write the edge at its
edge id (`none` models the Rust panic when that `Vec` write is out of
bounds), then insert into `adj[src]` — returning
`Err(AdjacencyVertexMissing(src))` when `get_mut` finds no slot — then
likewise into `rev[dst]`. -/
def tomtomEdgeListLoop : List Edge → List Edge →
    List (List (EdgeId × VertexId)) → List (List (EdgeId × VertexId)) →
    Option (Except TomTomGraphError TomTomEdgeList)
  | [], edges, adj, rev =>
    some (.ok { edges := edges, adj := adj, rev := rev })
  | e :: rows, edges, adj, rev =>
    if e.edge_id < edges.length then
      if hs : e.src_vertex_id < adj.length then
        if hd : e.dst_vertex_id < rev.length then
          tomtomEdgeListLoop rows (edges.set e.edge_id e)
            (adj.set e.src_vertex_id
              (mapInsert (adj.get ⟨e.src_vertex_id, hs⟩)
                e.edge_id e.dst_vertex_id))
            (rev.set e.dst_vertex_id
              (mapInsert (rev.get ⟨e.dst_vertex_id, hd⟩)
                e.edge_id e.src_vertex_id))
        else some (.error (.adjacencyVertexMissing e.dst_vertex_id))
      else some (.error (.adjacencyVertexMissing e.src_vertex_id))
    else none

/-- `TomTomEdgeList::try_from` on successfully parsed rows, with the
pre-allocated `n_edges` default edges and `n_vertices` empty adjacency
maps. -/
def TomTomEdgeList.try_from (n_edges n_vertices : Nat)
    (rows : List Edge) : Option (Except TomTomGraphError TomTomEdgeList) :=
  tomtomEdgeListLoop rows (List.replicate n_edges Edge.default)
    (List.replicate n_vertices []) (List.replicate n_vertices [])

/-- The mutable state threaded through `EdgeLoader::try_from`'s row
callback: the adjacency lists plus the local `missing_vertices` set. -/
structure EdgeLoaderState where
  adj : List (List (EdgeId × VertexId))
  rev : List (List (EdgeId × VertexId))
  missing_vertices : List VertexId
deriving DecidableEq, Repr

/-- `HashSet::insert` (as an ordered duplicate-free list). -/
def insertMissing (s : List VertexId) (v : VertexId) : List VertexId :=
  if v ∈ s then s else s ++ [v]

/-- The row callback of `EdgeLoader::try_from`: insert into `adj[src]`
and `rev[dst]`; a vertex id with no slot is recorded in
`missing_vertices` and the row is otherwise skipped — no error is
raised. -/
def edgeLoaderCallback (st : EdgeLoaderState) (e : Edge) :
    EdgeLoaderState :=
  let st1 :=
    if hs : e.src_vertex_id < st.adj.length then
      let links := mapInsert (st.adj.get ⟨e.src_vertex_id, hs⟩)
        e.edge_id e.dst_vertex_id
      { st with adj := st.adj.set e.src_vertex_id links }
    else
      { st with missing_vertices :=
          insertMissing st.missing_vertices e.src_vertex_id }
  if hd : e.dst_vertex_id < st1.rev.length then
    let links := mapInsert (st1.rev.get ⟨e.dst_vertex_id, hd⟩)
      e.edge_id e.src_vertex_id
    { st1 with rev := st1.rev.set e.dst_vertex_id links }
  else
    { st1 with missing_vertices :=
        insertMissing st1.missing_vertices e.dst_vertex_id }

/-- `EdgeLoader` from `edge_loader.rs`; the Rust struct holds
`edges`/`adj`/`rev`, and we additionally expose the function-local
`missing_vertices` set so that theorems can observe that `try_from`
computes it and then drops it. -/
structure EdgeLoader where
  edges : List Edge
  adj : List (List (EdgeId × VertexId))
  rev : List (List (EdgeId × VertexId))
  missing_vertices : List VertexId
deriving DecidableEq, Repr

/-- `EdgeLoader::try_from` on successfully parsed rows: run the callback
over every row and return `Ok` unconditionally — the collected
`missing_vertices` set is never consulted and no
`AdjacencyVertexMissing` error is produced on any path. -/
def EdgeLoader.try_from (n_vertices : Nat) (rows : List Edge) :
    Except GraphError EdgeLoader :=
  let st := rows.foldl edgeLoaderCallback
    { adj := List.replicate n_vertices []
      rev := List.replicate n_vertices []
      missing_vertices := [] }
  .ok { edges := rows, adj := st.adj, rev := st.rev
        missing_vertices := st.missing_vertices }

/-- C1 (divergence witness): on the single edge row whose src vertex id 5
resolves to no vertex (only vertex 0 exists), the graphv2
`EdgeLoader::try_from` succeeds — it records vertex 5 in the local
`missing_vertices` set but returns `Ok` anyway — while the sibling
`TomTomEdgeList::try_from` on the same input fails with
`AdjacencyVertexMissing(5)` as the claim (and spec §4.1) demand. -/
theorem edge_loader_succeeds_despite_missing_vertex :
    (∃ l, EdgeLoader.try_from 1
      [{ edge_id := 0, src_vertex_id := 5, dst_vertex_id := 0
         road_class := 0, distance := 1, grade := 0 }] = .ok l ∧
      l.missing_vertices = [5]) ∧
    TomTomEdgeList.try_from 1 1
      [{ edge_id := 0, src_vertex_id := 5, dst_vertex_id := 0
         road_class := 0, distance := 1, grade := 0 }] =
      some (.error (.adjacencyVertexMissing 5)) := by
  exact ⟨⟨_, rfl, by decide⟩, by decide⟩

/-! ## Claim C7: gzip handling of the edge CSV input -/

/-- How the edge CSV byte stream is decoded. -/
inductive DecodeMode
  | gzipDecode
  | plainDecode
deriving DecidableEq, Repr

/-- From `tomtom_edge_list.rs`: the CSV reader is constructed over
`GzDecoder::new(edge_list_file)` unconditionally — the decode mode never
consults the filename. -/
def tomtomEdgeListDecodeMode (_filename : String) : DecodeMode :=
  .gzipDecode

/-- Rust `str::ends_with`, evaluated on the character lists (the input
filenames are ASCII paths). -/
def strEndsWith (s pat : String) : Bool :=
  pat.data.isSuffixOf s.data

/-- `TomTomGraphConfig` from `tomtom_graph_config.rs` (the `verbose`
flag is irrelevant to the claims). -/
structure TomTomGraphConfig where
  edge_list_csv : String
  vertex_list_csv : String
  n_edges : Option Nat
  n_vertices : Option Nat
deriving DecidableEq, Repr

/-- `TomTomGraphConfig::get_n_edges`: the pre-declared size when
present; otherwise a line count of the input with gzip auto-detection by
the `.gz` filename suffix, minus the header line. `line_count` is an
external file-system call, passed in as a function. -/
def TomTomGraphConfig.get_n_edges (c : TomTomGraphConfig)
    (line_count : String → Bool → Except String Nat) :
    Except String Nat :=
  match c.n_edges with
  | some n => .ok n
  | none =>
    match line_count c.edge_list_csv
      (strEndsWith c.edge_list_csv ".gz") with
    | .error e => .error e
    | .ok n => .ok (n - 1)

/-- C7 counterexample: the filename `"edges.csv"` does not end in
`".gz"`, yet the edge-list loader still decodes the file through the
gzip decoder — decoding is not conditioned on the suffix, refuting the
claimed "if and only if". -/
theorem edge_csv_always_gzip_decoded :
    tomtomEdgeListDecodeMode "edges.csv" = .gzipDecode ∧
    strEndsWith "edges.csv" ".gz" = false := by
  exact ⟨rfl, by decide⟩

/-- C7 amended: the `.gz`-suffix test governs only the line-count
fallback used to size the arrays when `n_edges` is absent; the edge-list
reader itself always decodes through the gzip decoder, whatever the
filename. -/
theorem gzip_suffix_only_for_line_count (c : TomTomGraphConfig)
    (line_count : String → Bool → Except String Nat) (f : String)
    (hn : c.n_edges = none) :
    tomtomEdgeListDecodeMode f = .gzipDecode ∧
    c.get_n_edges line_count =
      (match line_count c.edge_list_csv
        (strEndsWith c.edge_list_csv ".gz") with
       | .error e => .error e
       | .ok n => .ok (n - 1)) := by
  refine ⟨rfl, ?_⟩
  unfold TomTomGraphConfig.get_n_edges
  rw [hn]

/-- Witness for C7's amended theorem: with no pre-declared size, the
line counter is invoked in gzip mode for a `.gz`-suffixed filename and
the header line is dropped from its count. -/
theorem gzip_suffix_only_for_line_count_witness :
    TomTomGraphConfig.get_n_edges
      { edge_list_csv := "edges.csv.gz", vertex_list_csv := "v.csv"
        n_edges := none, n_vertices := none }
      (fun _ g => if g then .ok 11 else .ok 999) = .ok 10 := by
  rw [(gzip_suffix_only_for_line_count
    { edge_list_csv := "edges.csv.gz", vertex_list_csv := "v.csv"
      n_edges := none, n_vertices := none }
    (fun _ g => if g then .ok 11 else .ok 999) "edges.csv.gz" rfl).2]
  decide

/-! ## Lookup characterizations (claims C8, C9) -/

/-- C8: a tabular lookup (speed table, headings table) returns `Ok` with
the entry at index `edge_id` exactly when `edge_id` is strictly below the
table length, and otherwise fails with the
`MissingIdInTabularCostFunction` error naming the table; no other failure
mode exists. -/
theorem tabular_lookup_ok_iff_in_bounds
    (st : List ℚ) (ht : List EdgeHeading) (i : EdgeId) :
    (∀ h : i < st.length, get_speed st i = .ok (st.get ⟨i, h⟩)) ∧
    (st.length ≤ i → get_speed st i = .error
      (.missingIdInTabularCostFunction (toString i) "EdgeId" "speed table")) ∧
    (∀ h : i < ht.length, get_headings ht i = .ok (ht.get ⟨i, h⟩)) ∧
    (ht.length ≤ i → get_headings ht i = .error
      (.missingIdInTabularCostFunction (toString i) "EdgeId" "headings table")) := by
  refine ⟨fun h => ?_, fun h => ?_, fun h => ?_, fun h => ?_⟩ <;>
    simp [get_speed, get_headings, List.get?_eq_get, List.getElem?_eq_none, h]

/-- Witness for C8 at concrete tables. -/
theorem tabular_lookup_ok_iff_in_bounds_witness :
    get_speed [(5 : ℚ)] 0 = .ok 5 ∧
    get_headings ([] : List EdgeHeading) 0 = .error
      (.missingIdInTabularCostFunction "0" "EdgeId" "headings table") :=
  ⟨(tabular_lookup_ok_iff_in_bounds [(5 : ℚ)] [] 0).1 (by decide),
   (tabular_lookup_ok_iff_in_bounds [(5 : ℚ)] [] 0).2.2.2 (by decide)⟩

/-- C9: with no grade table, `get_grade` returns `Ok(Grade::ZERO)` and
never fails; with a table present it returns the indexed entry, and the
`MissingIdInTabularCostFunction` error arises exactly when the edge id is
out of the table's bounds. -/
theorem get_grade_none_ok_zero (gt : List ℚ) (i : EdgeId) :
    get_grade none i = .ok 0 ∧
    (∀ h : i < gt.length, get_grade (some gt) i = .ok (gt.get ⟨i, h⟩)) ∧
    (gt.length ≤ i → get_grade (some gt) i = .error
      (.missingIdInTabularCostFunction (toString i) "EdgeId" "grade table")) := by
  refine ⟨rfl, fun h => ?_, fun h => ?_⟩ <;>
    simp [get_grade, List.get?_eq_get, List.getElem?_eq_none, h]

/-- Witness for C9 at a concrete table. -/
theorem get_grade_none_ok_zero_witness :
    get_grade none 7 = .ok 0 ∧ get_grade (some [(1 : ℚ)]) 0 = .ok 1 :=
  ⟨(get_grade_none_ok_zero [] 7).1,
   (get_grade_none_ok_zero [(1 : ℚ)] 0).2.1 (by decide)⟩

/-! ## Headings angle (claim C10) -/

/-- C10 counterexample: with `a.end_heading = 270` and
`b.start_heading = 0` (both in `[0, 360)`), the signed difference is
`-270`, whose normalization into `[-180, 180)` is `90`; but
`compute_headings_angle` returns `-270`, which lies outside `[-180, 180)`
(Rust's truncating `%` keeps the negative remainder). -/
theorem compute_headings_angle_not_normalized :
    compute_headings_angle ⟨0, 270⟩ ⟨0, 0⟩ = -270 ∧
    ¬(-180 ≤ compute_headings_angle ⟨0, 270⟩ ⟨0, 0⟩) := by
  constructor <;> decide

/-- C10 amended: for headings in `[0, 360)`,
`compute_headings_angle a b` equals the raw difference
`d = b.start_heading - a.end_heading` when `d < 180` and `d - 360` when
`d ≥ 180`; consequently it is the normalization of `d` into
`[-180, 180)` (congruent to `d` mod 360) exactly on inputs with
`d ≥ -180`, while for `d < -180` it returns `d` itself, below the
interval. -/
theorem compute_headings_angle_eq (a b : EdgeHeading)
    (ha0 : 0 ≤ a.end_heading) (ha1 : a.end_heading < 360)
    (hb0 : 0 ≤ b.start_heading) (hb1 : b.start_heading < 360) :
    compute_headings_angle a b =
      (if 180 ≤ b.start_heading - a.end_heading
       then b.start_heading - a.end_heading - 360
       else b.start_heading - a.end_heading) ∧
    (-180 ≤ b.start_heading - a.end_heading →
      -180 ≤ compute_headings_angle a b ∧
      compute_headings_angle a b < 180 ∧
      (compute_headings_angle a b - (b.start_heading - a.end_heading)) % 360
        = 0) := by
  have key : compute_headings_angle a b =
      if 180 ≤ b.start_heading - a.end_heading
      then b.start_heading - a.end_heading - 360
      else b.start_heading - a.end_heading := by
    unfold compute_headings_angle
    set d := b.start_heading - a.end_heading with hd
    split
    · rw [Int.tmod_eq_emod (by omega) (by omega)]; omega
    · rcases le_or_lt 0 (d + 180) with h | h
      · rw [Int.tmod_eq_emod h (by omega)]; omega
      · have h3 : (0 : Int) ≤ -(d + 180) := by omega
        have h4 : -(d + 180) < 360 := by omega
        have h5 : (-(d + 180)).tdiv 360 = 0 := Int.tdiv_eq_zero_of_lt h3 h4
        have h6 := Int.neg_tdiv (d + 180) 360
        have h7 : (d + 180).tdiv 360 = 0 := by omega
        rw [Int.tmod_def, h7]; ring
  refine ⟨key, fun hge => ?_⟩
  rw [key]
  split <;> omega

/-- Witness for C10's amended theorem at concrete headings. -/
theorem compute_headings_angle_eq_witness :
    compute_headings_angle ⟨0, 10⟩ ⟨40, 0⟩ = 30 ∧
    -180 ≤ compute_headings_angle ⟨0, 10⟩ ⟨40, 0⟩ ∧
    compute_headings_angle ⟨0, 10⟩ ⟨40, 0⟩ < 180 := by
  have h := compute_headings_angle_eq ⟨0, 10⟩ ⟨40, 0⟩
    (by decide) (by decide) (by decide) (by decide)
  have h2 := h.2 (by decide)
  exact ⟨by rw [h.1]; decide, h2.1, h2.2.1⟩

end Compass
